import Mathlib

/-!
Verification of the pod-health and restart predicates of the dependency-watchdog
repository (package `restarter`, file `pkg/restarter/utils.go`).

Modelling decisions (shallow embedding of the Go code):
* A `metav1.Time` / `time.Time` is modelled as an integer number of nanoseconds
  relative to Go's zero time, so the zero `Time` value is the integer `0`
  (`IsZero` in Go tests exactly for the zero value).  `time.Duration` is an
  integer nanosecond count and `time.Second` is `1000000000`.
* Go slices are modelled as Lean lists.  A nil Go slice behaves exactly like an
  empty slice for `range` loops and `len`, and `GetPodConditionFromList`'s
  explicit nil check returns the same `(-1, nil)` the loop returns on an empty
  slice, so `[]` models both nil and empty slices.
* Go pointers that the code compares with nil are modelled as `Option`.
* The Kubernetes string types `PodConditionType`, `ConditionStatus` and the
  waiting-reason field are `String`.
-/

namespace Restarter

/-- Go `time.Time`/`metav1.Time` as nanoseconds since Go's zero time. -/
abbrev Time := Int

/-- Go `time.Duration` (nanoseconds). -/
abbrev Duration := Int

/-- Go `time.Second`. -/
def second : Duration := 1000000000

/-- Go `t.IsZero()`: the time is the zero value. -/
def Time.IsZero (t : Time) : Bool := t == 0

/-- Go `t.Add(d)`. -/
def Time.Add (t : Time) (d : Duration) : Time := t + d

/-- Go `t.Before(u)`: strict comparison `t < u`. -/
def Time.Before (t u : Time) : Bool := decide (t < u)

abbrev PodConditionType := String

abbrev ConditionStatus := String

/-- Kubernetes `v1.ConditionTrue`. -/
def ConditionTrue : ConditionStatus := "True"

/-- Kubernetes `v1.ConditionFalse`. -/
def ConditionFalse : ConditionStatus := "False"

/-- Kubernetes `v1.PodReady` condition type. -/
def PodReady : PodConditionType := "Ready"

/-- Modelled from the spec: the `CrashLoopBackOff` constant is declared in a file
of this repository that is not under src; the spec names it as the well-known
"CrashLoopBackOff" sentinel string of the orchestration platform. -/
def CrashLoopBackOff : String := "CrashLoopBackOff"

/-- Kubernetes `v1.PodCondition` (the fields the code reads).  The Go field
`Type` cannot keep its name in Lean, so it is `type` here. -/
structure PodCondition where
  type : PodConditionType
  Status : ConditionStatus
  LastTransitionTime : Time
deriving Repr, DecidableEq

/-- Kubernetes `v1.ContainerStateWaiting` (the field the code reads). -/
structure ContainerStateWaiting where
  Reason : String
deriving Repr, DecidableEq

/-- Kubernetes `v1.ContainerStateRunning`. -/
structure ContainerStateRunning where
  StartedAt : Time
deriving Repr, DecidableEq

/-- Kubernetes `v1.ContainerStateTerminated` (one representative field). -/
structure ContainerStateTerminated where
  ExitCode : Int
deriving Repr, DecidableEq

/-- Kubernetes `v1.ContainerState`: three nilable pointers, of which the code
only ever reads `Waiting`. -/
structure ContainerState where
  Waiting : Option ContainerStateWaiting
  Running : Option ContainerStateRunning
  Terminated : Option ContainerStateTerminated
deriving Repr, DecidableEq

/-- Kubernetes `v1.ContainerStatus` (the field the code reads). -/
structure ContainerStatus where
  State : ContainerState
deriving Repr, DecidableEq

/-- Kubernetes `v1.PodStatus` (the fields the code reads). -/
structure PodStatus where
  Conditions : List PodCondition
  ContainerStatuses : List ContainerStatus
deriving Repr, DecidableEq

/-- Kubernetes `v1.Pod` (the fields the code reads).  `DeletionTimestamp` is a
nilable pointer in Go, hence an `Option`. -/
structure Pod where
  DeletionTimestamp : Option Time
  Status : PodStatus
deriving Repr, DecidableEq

/-- Kubernetes `v1.EndpointAddress` (only its presence matters). -/
structure EndpointAddress where
  IP : String
deriving Repr, DecidableEq

/-- Kubernetes `v1.EndpointSubset` (the field the code reads). -/
structure EndpointSubset where
  Addresses : List EndpointAddress
deriving Repr, DecidableEq

/-- The `for i := range conditions` loop of `GetPodConditionFromList`, carrying
the index of the head of the remaining list. -/
def getPodConditionLoop (conditionType : PodConditionType) (i : Int) :
    List PodCondition → Int × Option PodCondition
  | [] => (-1, none)
  | c :: rest =>
    if c.type == conditionType then (i, some c)
    else getPodConditionLoop conditionType (i + 1) rest

/-- Go `GetPodConditionFromList(conditions, conditionType)`: returns the index
of the first condition of the requested type together with that condition, and
`(-1, nil)` when no condition matches (the Go nil-slice check returns the same
value as the loop on an empty slice). -/
def GetPodConditionFromList (conditions : List PodCondition)
    (conditionType : PodConditionType) : Int × Option PodCondition :=
  getPodConditionLoop conditionType 0 conditions

/-- Go `GetPodCondition(status, conditionType)`: `status` is a nilable pointer. -/
def GetPodCondition (status : Option PodStatus) (conditionType : PodConditionType) :
    Int × Option PodCondition :=
  match status with
  | none => (-1, none)
  | some s => GetPodConditionFromList s.Conditions conditionType

/-- Go `GetPodReadyCondition(status)`: the second component of
`GetPodCondition(&status, v1.PodReady)`. -/
def GetPodReadyCondition (status : PodStatus) : Option PodCondition :=
  (GetPodCondition (some status) PodReady).2

/-- Go `IsPodReadyConditionTrue(status)`:
`condition != nil && condition.Status == v1.ConditionTrue`. -/
def IsPodReadyConditionTrue (status : PodStatus) : Bool :=
  match GetPodReadyCondition status with
  | none => false
  | some condition => condition.Status == ConditionTrue

/-- Go `IsPodReady(pod)`. -/
def IsPodReady (pod : Pod) : Bool :=
  IsPodReadyConditionTrue pod.Status

/-- Go `IsPodDeleted(pod)`: `pod.DeletionTimestamp != nil`. -/
def IsPodDeleted (pod : Pod) : Bool :=
  pod.DeletionTimestamp.isSome

/-- Go `IsPodAvailable(pod, minReadySeconds, now)`.  In Go the dereference of
`c` after the readiness check cannot be nil (readiness implies the Ready
condition is present); the `none` branch of the match is therefore dead code
and returning `false` there changes nothing observable. -/
def IsPodAvailable (pod : Pod) (minReadySeconds : Int) (now : Time) : Bool :=
  if !IsPodReady pod then
    false
  else
    match GetPodReadyCondition pod.Status with
    | none => false
    | some c =>
      let minReadySecondsDuration : Duration := minReadySeconds * second
      if minReadySeconds == 0 ||
          (!Time.IsZero c.LastTransitionTime &&
            Time.Before (Time.Add c.LastTransitionTime minReadySecondsDuration) now) then
        true
      else
        false

/-- Go `IsContainerInCrashLoopBackOff(containerState)`. -/
def IsContainerInCrashLoopBackOff (containerState : ContainerState) : Bool :=
  match containerState.Waiting with
  | none => false
  | some w => w.Reason == CrashLoopBackOff

/-- Go `IsPodInCrashloopBackoff(status)`: OR over all container statuses. -/
def IsPodInCrashloopBackoff (status : PodStatus) : Bool :=
  status.ContainerStatuses.any fun containerStatus =>
    IsContainerInCrashLoopBackOff containerStatus.State

/-- Go `ShouldDeletePod(pod)`. -/
def ShouldDeletePod (pod : Pod) : Bool :=
  !IsPodDeleted pod && IsPodInCrashloopBackoff pod.Status

/-- Go `IsReadyEndpointPresentInSubsets(subsets)`. -/
def IsReadyEndpointPresentInSubsets (subsets : List EndpointSubset) : Bool :=
  subsets.any fun subset => subset.Addresses.length != 0

/-- Modelled from the spec: the `ServiceDependants` root configuration entity is
declared in a file of this repository that is not under src; per the spec it
lists, for each watched service, its dependent workloads and restart
parameters such as a minimum-ready-seconds threshold. -/
structure ServiceConfig where
  dependantWorkloads : List String
  minReadySeconds : Int
deriving Repr, DecidableEq

/-- Modelled from the spec: root of the decoded configuration document, mapping
service names to their dependants and restart parameters. -/
structure ServiceDependants where
  services : List (String × ServiceConfig)
deriving Repr, DecidableEq

/-- An error value (Go `error`), kept abstract as its message string. -/
abbrev Err := String

/-- The ambient file system seen by `ioutil.ReadFile`: for a path, either the
file's bytes or a read error. -/
abbrev FileSystem := String → Except Err (List UInt8)

/-- The external `yaml.Unmarshal` of the ghodss/yaml library: for a byte
string, either the decoded `ServiceDependants` or a decode error. -/
abbrev YamlDecoder := List UInt8 → Except Err ServiceDependants

/-- Go `decodeConfigFile(data)`: runs `yaml.Unmarshal` and returns
`(nil, err)` on a decode error, `(dependants, nil)` on success.  The Go pair
`(*ServiceDependants, error)` is modelled as a pair of options. -/
def decodeConfigFile (unmarshal : YamlDecoder) (data : List UInt8) :
    Option ServiceDependants × Option Err :=
  match unmarshal data with
  | .error err => (none, some err)
  | .ok dependants => (some dependants, none)

/-- Go `LoadServiceDependants(file)`: reads the file, returning `(nil, err)` on
a read error, and otherwise decodes the bytes via `decodeConfigFile`. -/
def LoadServiceDependants (readFile : FileSystem) (unmarshal : YamlDecoder)
    (file : String) : Option ServiceDependants × Option Err :=
  match readFile file with
  | .error err => (none, some err)
  | .ok data => decodeConfigFile unmarshal data

/-! Helper lemmas shared by several claim theorems. -/

/-- Readiness holds exactly when the looked-up Ready condition exists with
status `True`. -/
theorem isPodReady_iff (pod : Pod) :
    IsPodReady pod = true ↔
      ∃ c, GetPodReadyCondition pod.Status = some c ∧ c.Status = ConditionTrue := by
  unfold IsPodReady IsPodReadyConditionTrue
  cases h : GetPodReadyCondition pod.Status with
  | none => simp [h]
  | some c => simp [h]

/-- Full characterisation of `IsPodAvailable`: readiness is a hard
precondition, and then either no soak time is required or the non-zero
transition time plus the soak duration is strictly before `now`. -/
theorem isPodAvailable_iff (pod : Pod) (minReadySeconds : Int) (now : Time) :
    IsPodAvailable pod minReadySeconds now = true ↔
      IsPodReady pod = true ∧
        (minReadySeconds = 0 ∨
          ∃ c, GetPodReadyCondition pod.Status = some c ∧
            c.LastTransitionTime ≠ 0 ∧
            c.LastTransitionTime + minReadySeconds * second < now) := by
  unfold IsPodAvailable
  cases hr : IsPodReady pod with
  | false => simp [hr]
  | true =>
    obtain ⟨c, hc, _⟩ := (isPodReady_iff pod).1 hr
    simp [hr, hc, Time.IsZero, Time.Add, Time.Before]

/-- A pod that is not ready is never available. -/
theorem not_ready_not_available (pod : Pod) (h : IsPodReady pod = false)
    (s : Int) (now : Time) : IsPodAvailable pod s now = false := by
  cases hb : IsPodAvailable pod s now with
  | false => rfl
  | true =>
    have := ((isPodAvailable_iff pod s now).1 hb).1
    rw [h] at this
    exact absurd this (by simp)

/-- The condition-lookup loop returns the not-found sentinel when no entry of
the list has the requested type. -/
theorem getPodConditionLoop_eq_none (t : PodConditionType) (i : Int)
    (l : List PodCondition) (h : ∀ c ∈ l, c.type ≠ t) :
    getPodConditionLoop t i l = (-1, none) := by
  induction l generalizing i with
  | nil => rfl
  | cons c rest ih =>
    have hc : c.type ≠ t := h c (List.mem_cons_self c rest)
    simp only [getPodConditionLoop, beq_iff_eq, if_neg hc]
    exact ih (i + 1) fun x hx => h x (List.mem_cons_of_mem c hx)

/-- A status with no Ready-typed condition has no Ready condition. -/
theorem getPodReadyCondition_eq_none (st : PodStatus)
    (h : ∀ c ∈ st.Conditions, c.type ≠ PodReady) :
    GetPodReadyCondition st = none := by
  unfold GetPodReadyCondition GetPodCondition GetPodConditionFromList
  simp only [getPodConditionLoop_eq_none PodReady 0 st.Conditions h]

/-- Claim C1: a pod is available exactly when it is ready and either no soak
time is required (`minReadySeconds = 0`) or the Ready condition's transition
time is non-zero and `lastTransitionTime + minReadySeconds` (as a duration) is
strictly before `now`; at `now = lastTransitionTime + minReadySeconds` exactly
the pod is not available, and a non-ready pod is never available. -/
theorem C1_isPodAvailable_iff (pod : Pod) (minReadySeconds : Int) (now : Time) :
    IsPodAvailable pod minReadySeconds now = true ↔
      IsPodReady pod = true ∧
        (minReadySeconds = 0 ∨
          ∃ c, GetPodReadyCondition pod.Status = some c ∧
            c.LastTransitionTime ≠ 0 ∧
            c.LastTransitionTime + minReadySeconds * second < now) :=
  isPodAvailable_iff pod minReadySeconds now

/-- Claim C2: for a pod whose Ready condition is `True` with a zero (unset)
transition time, availability holds with `minReadySeconds = 0` but fails for
every positive `minReadySeconds`, at every time `now`. -/
theorem C2_zero_transition_time (pod : Pod) (c : PodCondition) (now : Time) (s : Int)
    (hc : GetPodReadyCondition pod.Status = some c)
    (hst : c.Status = ConditionTrue) (hz : c.LastTransitionTime = 0) (hs : 0 < s) :
    IsPodAvailable pod 0 now = true ∧ IsPodAvailable pod s now = false := by
  have hready : IsPodReady pod = true := (isPodReady_iff pod).2 ⟨c, hc, hst⟩
  constructor
  · exact (isPodAvailable_iff pod 0 now).2 ⟨hready, Or.inl rfl⟩
  · cases hb : IsPodAvailable pod s now with
    | false => rfl
    | true =>
      obtain ⟨-, hcase⟩ := (isPodAvailable_iff pod s now).1 hb
      rcases hcase with hzero | ⟨c', hc', hnz, -⟩
      · omega
      · rw [hc] at hc'
        cases hc'
        exact absurd hz hnz

/-- Claim C2 witness at a concrete pod with a zero transition time. -/
theorem C2_witness :
    IsPodAvailable ⟨none, ⟨[⟨PodReady, ConditionTrue, 0⟩], []⟩⟩ 0 12345 = true ∧
    IsPodAvailable ⟨none, ⟨[⟨PodReady, ConditionTrue, 0⟩], []⟩⟩ 30 12345 = false :=
  C2_zero_transition_time ⟨none, ⟨[⟨PodReady, ConditionTrue, 0⟩], []⟩⟩
    ⟨PodReady, ConditionTrue, 0⟩ 12345 30 (by decide) rfl rfl (by decide)

/-- Claim C3: a pod with no Ready-typed condition (in particular an empty
condition list) is neither ready nor available for any soak time and any
time, and readiness holds exactly when the looked-up Ready condition exists
with status `True`. -/
theorem C3_no_ready_condition (pod : Pod) :
    ((∀ c ∈ pod.Status.Conditions, c.type ≠ PodReady) →
      IsPodReady pod = false ∧
        ∀ (s : Int) (now : Time), IsPodAvailable pod s now = false) ∧
    (IsPodReady pod = true ↔
      ∃ c, GetPodReadyCondition pod.Status = some c ∧ c.Status = ConditionTrue) := by
  refine ⟨fun h => ?_, isPodReady_iff pod⟩
  have hnone : GetPodReadyCondition pod.Status = none :=
    getPodReadyCondition_eq_none pod.Status h
  have hready : IsPodReady pod = false := by
    unfold IsPodReady IsPodReadyConditionTrue
    rw [hnone]
  exact ⟨hready, fun s now => not_ready_not_available pod hready s now⟩

/-- Claim C3 witness at a concrete pod with an empty condition list. -/
theorem C3_witness :
    IsPodReady ⟨none, ⟨[], []⟩⟩ = false ∧
    IsPodAvailable ⟨none, ⟨[], []⟩⟩ 30 100 = false := by
  have h := (C3_no_ready_condition ⟨none, ⟨[], []⟩⟩).1 (by simp)
  exact ⟨h.1, h.2 30 100⟩

/-- Claim C4: a pod should be deleted exactly when its deletion timestamp is
unset (it is not already being deleted) and it is in crashloop backoff; in
particular a pod with a set deletion timestamp is never deleted again. -/
theorem C4_shouldDeletePod_iff (pod : Pod) :
    ShouldDeletePod pod = true ↔
      pod.DeletionTimestamp = none ∧ IsPodInCrashloopBackoff pod.Status = true := by
  unfold ShouldDeletePod IsPodDeleted
  cases h : pod.DeletionTimestamp <;> simp [h]

/-- A container is in crashloop backoff exactly when it is waiting with the
sentinel reason. -/
theorem isContainerInCrashLoopBackOff_iff (st : ContainerState) :
    IsContainerInCrashLoopBackOff st = true ↔
      ∃ w, st.Waiting = some w ∧ w.Reason = CrashLoopBackOff := by
  unfold IsContainerInCrashLoopBackOff
  cases h : st.Waiting <;> simp [h]

/-- Claim C5: a pod status is in crashloop backoff exactly when some container
status in its list is waiting with reason exactly the `CrashLoopBackOff`
sentinel; a non-waiting state (Running or Terminated) or a waiting state with
a different reason is never in crashloop backoff, and an empty container list
yields false. -/
theorem C5_crashloop_iff (status : PodStatus) :
    (IsPodInCrashloopBackoff status = true ↔
      ∃ cs ∈ status.ContainerStatuses, ∃ w,
        cs.State.Waiting = some w ∧ w.Reason = CrashLoopBackOff) ∧
    (∀ st : ContainerState, st.Waiting = none →
      IsContainerInCrashLoopBackOff st = false) ∧
    (∀ (st : ContainerState) (w : ContainerStateWaiting), st.Waiting = some w →
      w.Reason ≠ CrashLoopBackOff → IsContainerInCrashLoopBackOff st = false) ∧
    (status.ContainerStatuses = [] → IsPodInCrashloopBackoff status = false) := by
  refine ⟨?_, ?_, ?_, ?_⟩
  · simp [IsPodInCrashloopBackoff, List.any_eq_true, isContainerInCrashLoopBackOff_iff]
  · intro st h
    simp [IsContainerInCrashLoopBackOff, h]
  · intro st w h hr
    simp [IsContainerInCrashLoopBackOff, h, hr]
  · intro h
    simp [IsPodInCrashloopBackoff, h]

/-- Claim C5 witness: a Running container is not crashlooping, a Waiting
container with a different reason is not crashlooping, and a pod with no
container statuses is not in crashloop backoff. -/
theorem C5_witness :
    IsContainerInCrashLoopBackOff ⟨none, some ⟨0⟩, none⟩ = false ∧
    IsContainerInCrashLoopBackOff ⟨some ⟨"ImagePullBackOff"⟩, none, none⟩ = false ∧
    IsPodInCrashloopBackoff ⟨[], []⟩ = false :=
  ⟨(C5_crashloop_iff ⟨[], []⟩).2.1 ⟨none, some ⟨0⟩, none⟩ rfl,
   (C5_crashloop_iff ⟨[], []⟩).2.2.1 ⟨some ⟨"ImagePullBackOff"⟩, none, none⟩
     ⟨"ImagePullBackOff"⟩ rfl (by decide),
   (C5_crashloop_iff ⟨[], []⟩).2.2.2 rfl⟩

/-- The lookup loop at start index `i` returns `(-1, none)` when `find?` on
the remaining list fails. -/
theorem getPodConditionLoop_of_find_none (t : PodConditionType) (i : Int)
    (l : List PodCondition) (h : l.find? (fun c => c.type == t) = none) :
    getPodConditionLoop t i l = (-1, none) := by
  induction l generalizing i with
  | nil => rfl
  | cons c rest ih =>
    by_cases hc : c.type == t
    · rw [@List.find?_cons_of_pos _ (fun x => x.type == t) c rest hc] at h
      exact absurd h (by simp)
    · rw [@List.find?_cons_of_neg _ (fun x => x.type == t) c rest hc] at h
      simp only [getPodConditionLoop, if_neg hc]
      exact ih (i + 1) h

/-- The lookup loop at start index `i` returns the first match of `find?`
together with its offset `findIdx` from `i`. -/
theorem getPodConditionLoop_of_find_some (t : PodConditionType) (i : Int)
    (l : List PodCondition) (c : PodCondition)
    (h : l.find? (fun x => x.type == t) = some c) :
    getPodConditionLoop t i l =
      (i + (l.findIdx (fun x => x.type == t) : Int), some c) := by
  induction l generalizing i with
  | nil => simp at h
  | cons a rest ih =>
    by_cases ha : a.type == t
    · rw [@List.find?_cons_of_pos _ (fun x => x.type == t) a rest ha] at h
      cases h
      simp [getPodConditionLoop, if_pos ha, List.findIdx_cons, ha]
    · rw [@List.find?_cons_of_neg _ (fun x => x.type == t) a rest ha] at h
      have := ih (i + 1) h
      simp only [getPodConditionLoop, if_neg ha, this, List.findIdx_cons, ha,
        cond_false, if_false, Bool.false_eq_true]
      refine Prod.ext ?_ rfl
      push_cast
      omega

/-- Within a list, `find?` returns the head of the filtered list. -/
theorem find_eq_head_filter {α : Type} (p : α → Bool) (l : List α) :
    l.find? p = (l.filter p).head? := by
  induction l with
  | nil => rfl
  | cons a l ih =>
    by_cases h : p a
    · rw [List.find?_cons_of_pos _ h, List.filter_cons_of_pos h, List.head?_cons]
    · rw [List.find?_cons_of_neg _ h, List.filter_cons_of_neg h, ih]

/-- Claim C6: condition lookup returns the not-found sentinel `(-1, none)`
when no entry has the requested type (in particular on the empty list), and
otherwise the first (lowest-index) entry of that type: the returned condition
is `find?` of the list, equivalently the head of the sublist of entries of the
requested type — so the earliest duplicate wins and the returned condition is
independent of the order of entries of other types — and the returned index
is `findIdx` of the first match. -/
theorem C6_getPodConditionFromList_spec (conditions : List PodCondition)
    (t : PodConditionType) :
    ((∀ c ∈ conditions, c.type ≠ t) →
      GetPodConditionFromList conditions t = (-1, none)) ∧
    ((GetPodConditionFromList conditions t).2 =
      conditions.find? (fun c => c.type == t)) ∧
    ((GetPodConditionFromList conditions t).2 =
      (conditions.filter (fun c => c.type == t)).head?) ∧
    (∀ c, conditions.find? (fun x => x.type == t) = some c →
      GetPodConditionFromList conditions t =
        ((conditions.findIdx (fun x => x.type == t) : Int), some c)) := by
  refine ⟨?_, ?_, ?_, ?_⟩
  · intro h
    unfold GetPodConditionFromList
    exact getPodConditionLoop_eq_none t 0 conditions h
  · unfold GetPodConditionFromList
    cases h : conditions.find? (fun c => c.type == t) with
    | none => rw [getPodConditionLoop_of_find_none t 0 conditions h]
    | some c => rw [getPodConditionLoop_of_find_some t 0 conditions c h]
  · rw [← find_eq_head_filter]
    unfold GetPodConditionFromList
    cases h : conditions.find? (fun c => c.type == t) with
    | none => rw [getPodConditionLoop_of_find_none t 0 conditions h]
    | some c => rw [getPodConditionLoop_of_find_some t 0 conditions c h]
  · intro c h
    unfold GetPodConditionFromList
    rw [getPodConditionLoop_of_find_some t 0 conditions c h]
    simp

/-- Claim C6 witness: lookup of a type absent from a concrete non-empty list
hits the sentinel, and lookup in a list with a duplicate Ready entry returns
the earlier one at its index. -/
theorem C6_witness :
    GetPodConditionFromList [⟨"PodScheduled", ConditionTrue, 5⟩] PodReady =
      (-1, none) ∧
    GetPodConditionFromList
      [⟨"PodScheduled", ConditionTrue, 5⟩, ⟨PodReady, ConditionFalse, 7⟩,
        ⟨PodReady, ConditionTrue, 9⟩] PodReady =
      (1, some ⟨PodReady, ConditionFalse, 7⟩) := by
  constructor
  · exact (C6_getPodConditionFromList_spec [⟨"PodScheduled", ConditionTrue, 5⟩]
      PodReady).1 (by decide)
  · exact (C6_getPodConditionFromList_spec
      [⟨"PodScheduled", ConditionTrue, 5⟩, ⟨PodReady, ConditionFalse, 7⟩,
        ⟨PodReady, ConditionTrue, 9⟩] PodReady).2.2.2
      ⟨PodReady, ConditionFalse, 7⟩ (by decide)

/-- Claim C7: a ready endpoint is present exactly when some subset has a
non-empty address list; in particular the empty list yields false and a
single subset holding one address yields true. -/
theorem C7_readyEndpoint_iff (subsets : List EndpointSubset) :
    (IsReadyEndpointPresentInSubsets subsets = true ↔
      ∃ s ∈ subsets, s.Addresses ≠ []) ∧
    IsReadyEndpointPresentInSubsets [] = false ∧
    (∀ a : EndpointAddress, IsReadyEndpointPresentInSubsets [⟨[a]⟩] = true) := by
  refine ⟨?_, rfl, fun a => rfl⟩
  simp [IsReadyEndpointPresentInSubsets, List.any_eq_true, List.length_eq_zero]

/-- Claim C8: the config loader returns no config value and exactly the
underlying error when the file read fails or when unmarshalling the read
bytes fails, and whenever an error is returned the config pointer is nil. -/
theorem C8_loadServiceDependants_errors (readFile : FileSystem)
    (unmarshal : YamlDecoder) (file : String) :
    (∀ e, readFile file = .error e →
      LoadServiceDependants readFile unmarshal file = (none, some e)) ∧
    (∀ data e, readFile file = .ok data → unmarshal data = .error e →
      LoadServiceDependants readFile unmarshal file = (none, some e)) ∧
    (∀ result err, LoadServiceDependants readFile unmarshal file = (result, some err) →
      result = none) := by
  refine ⟨?_, ?_, ?_⟩
  · intro e he
    unfold LoadServiceDependants
    rw [he]
  · intro data e hd hu
    unfold LoadServiceDependants
    rw [hd]
    show decodeConfigFile unmarshal data = (none, some e)
    unfold decodeConfigFile
    rw [hu]
  · intro result err h
    cases hr : readFile file with
    | error e =>
      have hL : LoadServiceDependants readFile unmarshal file = (none, some e) := by
        unfold LoadServiceDependants
        rw [hr]
      rw [hL] at h
      injection h with h1 h2
      exact h1.symm
    | ok data =>
      have hL : LoadServiceDependants readFile unmarshal file =
          decodeConfigFile unmarshal data := by
        unfold LoadServiceDependants
        rw [hr]
      rw [hL] at h
      cases hu : unmarshal data with
      | error e =>
        have hD : decodeConfigFile unmarshal data = (none, some e) := by
          unfold decodeConfigFile
          rw [hu]
        rw [hD] at h
        injection h with h1 h2
        exact h1.symm
      | ok dep =>
        have hD : decodeConfigFile unmarshal data = (some dep, none) := by
          unfold decodeConfigFile
          rw [hu]
        rw [hD] at h
        injection h with h1 h2
        exact absurd h2 (by simp)

/-- Claim C8 witness: a failing read propagates its error with no config, and
a successful read followed by a failing decode propagates the decode error
with no config. -/
theorem C8_witness :
    LoadServiceDependants (fun _ => .error ("file not found"))
      (fun _ => .ok ⟨[]⟩) "deps.yaml" = (none, some ("file not found")) ∧
    LoadServiceDependants (fun _ => .ok [123])
      (fun _ => .error ("malformed YAML")) "deps.yaml" =
      (none, some ("malformed YAML")) :=
  ⟨(C8_loadServiceDependants_errors (fun _ => .error ("file not found"))
      (fun _ => .ok ⟨[]⟩) "deps.yaml").1 ("file not found") rfl,
   (C8_loadServiceDependants_errors (fun _ => .ok [123])
      (fun _ => .error ("malformed YAML")) "deps.yaml").2.1 [123]
      ("malformed YAML") rfl rfl⟩

/-- Claim C9: every predicate is a total function (each embedding is a plain
terminating Lean `def`), and on inputs whose condition list,
container-status list or subset list is empty (modelling Go nil or empty
slices) each returns the negative answer rather than an error. -/
theorem C9_totality_negative_defaults :
    (∀ st : PodStatus, st.Conditions = [] → IsPodReadyConditionTrue st = false) ∧
    (∀ pod : Pod, pod.Status.Conditions = [] →
      IsPodReady pod = false ∧
        ∀ (s : Int) (now : Time), IsPodAvailable pod s now = false) ∧
    (∀ st : PodStatus, st.ContainerStatuses = [] →
      IsPodInCrashloopBackoff st = false) ∧
    IsReadyEndpointPresentInSubsets [] = false ∧
    (∀ t : PodConditionType, GetPodConditionFromList [] t = (-1, none)) := by
  refine ⟨?_, ?_, ?_, rfl, fun t => rfl⟩
  · intro st h
    unfold IsPodReadyConditionTrue
    rw [getPodReadyCondition_eq_none st (by simp [h])]
  · intro pod h
    have hready : IsPodReady pod = false := by
      unfold IsPodReady IsPodReadyConditionTrue
      rw [getPodReadyCondition_eq_none pod.Status (by simp [h])]
    exact ⟨hready, fun s now => not_ready_not_available pod hready s now⟩
  · intro st h
    simp [IsPodInCrashloopBackoff, h]

/-- Claim C9 witness at concrete empty-list inputs. -/
theorem C9_witness :
    IsPodReadyConditionTrue ⟨[], []⟩ = false ∧
    IsPodAvailable ⟨none, ⟨[], []⟩⟩ 7 99 = false ∧
    IsPodInCrashloopBackoff ⟨[], []⟩ = false :=
  ⟨C9_totality_negative_defaults.1 ⟨[], []⟩ rfl,
   (C9_totality_negative_defaults.2.1 ⟨none, ⟨[], []⟩⟩ rfl).2 7 99,
   C9_totality_negative_defaults.2.2.1 ⟨[], []⟩ rfl⟩

/-- Claim C10: looking up any condition type on a nil status pointer yields
the not-found sentinel `(-1, none)` instead of failing. -/
theorem C10_getPodCondition_nil_status (t : PodConditionType) :
    GetPodCondition none t = (-1, none) := rfl

end Restarter
